import Mathlib

/-!
Shallow embedding of `opus-embedded/sys/build.rs`.

The build script has two independent pure cores:

* the build-configuration resolver (`main`, lines 105-142): from the target
  triple, the target OS name, the manifest directory and the cargo feature
  flags it accumulates autotools configure options, C flags and linker flags;
* the comment transformer (`ParseCallback::process_comment`, lines 47-74):
  after an external doxygen conversion it applies five literal string
  substitutions followed by five ordered regex rewrite rules.

Both are embedded below as executable Lean functions over `String` /
`List Char`, translated from the Rust source.
-/

/-! ## Build plan resolver -/

/-- The accumulating state of the `autotools::Config` builder, restricted to
the fields the build script touches: configure `--enable`/`--disable`
options, extra C flags and extra linker flags, each kept in call order. -/
structure BuildPlan where
  enabled_options : List String
  disabled_options : List String
  cflags : List String
  ldflags : List String
deriving Repr, DecidableEq

/-- `builder.disable(opt, None)`: record a `--disable-opt` configure option. -/
def BuildPlan.disable (plan : BuildPlan) (opt : String) : BuildPlan :=
  { plan with disabled_options := plan.disabled_options ++ [opt] }

/-- `builder.enable(opt, None)`: record an `--enable-opt` configure option. -/
def BuildPlan.enable (plan : BuildPlan) (opt : String) : BuildPlan :=
  { plan with enabled_options := plan.enabled_options ++ [opt] }

/-- `builder.cflag(flag)`: append an extra C compiler flag. -/
def BuildPlan.cflag (plan : BuildPlan) (flag : String) : BuildPlan :=
  { plan with cflags := plan.cflags ++ [flag] }

/-- `builder.ldflag(flag)`: append an extra linker flag. -/
def BuildPlan.ldflag (plan : BuildPlan) (flag : String) : BuildPlan :=
  { plan with ldflags := plan.ldflags ++ [flag] }

/-- The cargo feature flags consulted by the build script via `cfg!`. -/
structure Features where
  optimize_libopus : Bool
  stereo : Bool
deriving Repr, DecidableEq

/-- Rust `str::starts_with(pat)`: the pattern's characters are an initial
segment of the string's characters. -/
def starts_with (s pat : String) : Bool :=
  pat.data.isPrefixOf s.data

/-- The build-configuration resolver: the pure content of `main` lines
105-142.  `target` is `env::var("TARGET")`, `cargo_cfg_target_os` is
`env::var("CARGO_CFG_TARGET_OS")`, `cargo_manifest_dir` is
`env::var("CARGO_MANIFEST_DIR")`. -/
def resolve (target cargo_cfg_target_os cargo_manifest_dir : String)
    (features : Features) : BuildPlan :=
  let plan : BuildPlan := ⟨[], [], [], []⟩
  let plan := ((((((plan.disable "deep-plc").disable "doc").disable
    "dred").disable "extra-programs").disable "float-api").enable "fixed-point")
  let plan := if starts_with target "thumbv6m-" then plan.disable "asm" else plan
  let plan := if starts_with target "thumbv7m-" then plan.disable "rtcd" else plan
  let plan := if starts_with target "thumbv8m.main-" then
    (plan.disable "asm").disable "rtcd" else plan
  let plan := if cargo_cfg_target_os == "none" then
    (((((plan.cflag "-D_FORTIFY_SOURCE=0").cflag
      "-DOVERRIDE_celt_fatal").cflag
      "-DCUSTOM_SUPPORT").cflag
      ("-I" ++ (cargo_manifest_dir ++ "/src"))).ldflag "-nostdlib")
    else plan
  if features.optimize_libopus then plan.cflag "-O3" else plan

/-- The bindgen builder state, restricted to the fields the build script
sets: allow-listed type, function and variable patterns, and the clang
arguments, each in call order. -/
structure BindgenBuilder where
  allowlist_types : List String
  allowlist_functions : List String
  allowlist_vars : List String
  clang_args : List String
deriving Repr, DecidableEq

/-- The bindgen configuration built in `main` lines 150-187 (allow-list and
clang arguments only; header path, visibility and callbacks carry no
claim-relevant data). -/
def bindgen_config (cargo_cfg_target_os : String) (features : Features) :
    BindgenBuilder :=
  let b : BindgenBuilder :=
    ⟨["OpusDecoder"],
     ["opus_decode", "opus_decoder_get_nb_samples", "opus_decoder_get_size",
      "opus_decoder_init", "opus_packet_get_.*", "opus_strerror"],
     ["OPUS_OK", "OPUS_BAD_ARG", "OPUS_BUFFER_TOO_SMALL",
      "OPUS_INTERNAL_ERROR", "OPUS_INVALID_PACKET", "OPUS_UNIMPLEMENTED",
      "OPUS_INVALID_STATE", "OPUS_ALLOC_FAIL", "OPUS_BANDWIDTH_.*"],
     ["-DDISABLE_DEBUG_FLOAT=1", "-DDISABLE_FLOAT_API=1", "-DFIXED_POINT=1",
      "-DFLOAT_APPROX=1", "-Isrc/opus/celt", "-Isrc/opus/dnn",
      "-Isrc/opus/include", "-Isrc/opus/silk"]⟩
  let b := if cargo_cfg_target_os ≠ "none" then
    { b with allowlist_functions :=
        b.allowlist_functions ++ ["opus_decoder_create", "opus_decoder_destroy"] }
    else b
  if features.stereo then
    { b with clang_args := b.clang_args ++ ["-DOPUS_EMBEDDED_SYS_STEREO"] }
  else b

/-! ## Comment transformer

`ParseCallback::process_comment` first runs `doxygen_bindgen::transform`
(an external crate, kept abstract here as a `String → Except String String`
parameter), then five chained `str::replace` literal substitutions, then a
loop of five `Regex::replace_all` rewrite rules.

Both `str::replace` and `Regex::replace_all` scan left to right and replace
every non-overlapping match, resuming after each match without rescanning
the replacement text.  That shared scanning discipline is `scanStep` below;
each concrete pattern becomes a step function that either matches at the
current position (returning the replacement and the input remaining after
the match) or does not.
-/

/-- One left-to-right, non-overlapping replace pass: at each position the
step function either matches (its replacement is emitted and scanning
resumes after the consumed input) or the scanner advances one character.
Fuel bounds the recursion; every step function below consumes at least one
character on a match, so fuel equal to the input length never runs out. -/
def scanStep (step : List Char → Option (List Char × List Char)) :
    Nat → List Char → List Char
  | _, [] => []
  | 0, l => l
  | fuel + 1, c :: cs =>
    match step (c :: cs) with
    | some (rep, rest) => rep ++ scanStep step fuel rest
    | none => c :: scanStep step fuel cs

/-- `Regex::replace_all` / `str::replace` driver over one step function. -/
def replace_all (step : List Char → Option (List Char × List Char))
    (l : List Char) : List Char :=
  scanStep step l.length l

/-- If `pat` is an initial segment of `l`, the remainder of `l` after it. -/
def stripLit (pat : String) (l : List Char) : Option (List Char) :=
  if pat.data.isPrefixOf l then some (l.drop pat.data.length) else none

/-- Step function of Rust `str::replace(pat, rep)`: an exact literal match. -/
def stepLit (pat rep : String) (l : List Char) :
    Option (List Char × List Char) :=
  match stripLit pat l with
  | some rest => some (rep.data, rest)
  | none => none

/-- The five chained `str::replace` literal substitutions of
`process_comment`, in source order. -/
def literal_subs (l : List Char) : List Char :=
  replace_all (stepLit " # See also\n\n> [`opus_decoder_create,opus_decoder_get_size`]"
      "\nSee also [`opus_decoder_create`] and [`opus_decoder_get_size`].")
    (replace_all (stepLit "@retval OPUS_BANDWIDTH_NARROW"
        "\n\n# Returns\n\n@retval OPUS_BANDWIDTH_NARROW")
      (replace_all (stepLit "@retval #OPUS_OK" "\n\n\n# Returns\n\n@retval #OPUS_OK")
        (replace_all (stepLit "#OPUS_RESET_STATE" "`OPUS_RESET_STATE`")
          (replace_all (stepLit "[`opus_errorcodes`]" "opus error codes") l))))

/-- Character class `[A-Z_]` of the rewrite-rule patterns. -/
def isTag (c : Char) : Bool :=
  (65 ≤ c.toNat && c.toNat ≤ 90) || c.toNat == 95

/-- Rule 1, pattern `\[(?<text>(in|out))\] ` with replacement
`_\[$text\]_` (the backslashes are literal in the replacement string). -/
def step_inout (l : List Char) : Option (List Char × List Char) :=
  match stripLit "[in] " l with
  | some rest => some ("_\\[in\\]_".data, rest)
  | none =>
    match stripLit "[out] " l with
    | some rest => some ("_\\[out\\]_".data, rest)
    | none => none

/-- Rule 2, pattern `\n(?<text>\* `error`[^\n]+)\n(?<after>[^\*]*$)` with
replacement `\n$text\n\n$after`.  The `text` group is the rest of the
`* `error`` line (at least one more character); the `after` group must be
star-free and reach the end of the haystack, so a match always extends to
the end of the input. -/
def step_error_line (l : List Char) : Option (List Char × List Char) :=
  match l with
  | '\n' :: rest =>
    match stripLit "* `error`" rest with
    | some rest2 =>
      match rest2.takeWhile (fun c => !(c == '\n')),
          rest2.dropWhile (fun c => !(c == '\n')) with
      | lineFirst :: lineRest, '\n' :: after =>
        if after.all (fun c => !(c == '*')) then
          some ('\n' :: ("* `error`".data ++ lineFirst :: lineRest)
            ++ '\n' :: '\n' :: after, [])
        else none
      | _, _ => none
    | none => none
  | _ => none

/-- Rule 3, pattern `#(?<text>[A-Z_]+)` with replacement `[`$text`]`. -/
def step_hash (l : List Char) : Option (List Char × List Char) :=
  match l with
  | '#' :: cs =>
    match cs.takeWhile isTag with
    | [] => none
    | run => some ("[`".data ++ run ++ "`]".data, cs.dropWhile isTag)
  | _ => none

/-- Rule 4, pattern `@retval #?(?<val>[A-Z_]+) (?<text>.*)` with replacement
`\n\n* [`$val`] $text`.  `.` does not match a newline, so `text` is the
rest of the line. -/
def step_retval_code (l : List Char) : Option (List Char × List Char) :=
  match stripLit "@retval " l with
  | none => none
  | some rest =>
    let rest1 := match rest with
      | '#' :: r => r
      | _ => rest
    match rest1.takeWhile isTag, rest1.dropWhile isTag with
    | run@(_ :: _), ' ' :: afterSpace =>
      some ("\n\n* [`".data ++ run ++ "`] ".data
        ++ afterSpace.takeWhile (fun c => !(c == '\n')),
        afterSpace.dropWhile (fun c => !(c == '\n')))
    | _, _ => none

/-- Rule 5, pattern `@retval (?<text>.*)` with replacement `\n\n* $text`. -/
def step_retval (l : List Char) : Option (List Char × List Char) :=
  match stripLit "@retval " l with
  | none => none
  | some rest =>
    some ("\n\n* ".data ++ rest.takeWhile (fun c => !(c == '\n')),
      rest.dropWhile (fun c => !(c == '\n')))

/-- The `for (regex, replacement) in &self.replacements` loop: the five
`Regex::replace_all` rewrite rules applied in the order of
`ParseCallback::new`. -/
def rewrite_rules (l : List Char) : List Char :=
  replace_all step_retval
    (replace_all step_retval_code
      (replace_all step_hash
        (replace_all step_error_line
          (replace_all step_inout l))))

/-- `ParseCallback::process_comment`.  `tf` is the external
`doxygen_bindgen::transform` collaborator.  The first component is the
returned `Option<String>` (`.ok()` of the mapped result); the second is the
`cargo:warning` line printed by `.inspect_err`, if any. -/
def process_comment (tf : String → Except String String) (comment : String) :
    Option String × Option String :=
  match tf comment with
  | Except.ok c =>
    (some (String.mk (rewrite_rules (literal_subs c.data))), none)
  | Except.error err =>
    (none,
     some ("cargo:warning=Could not transform doxygen comment: "
       ++ comment ++ "\n" ++ err))

/-- Overlap-tolerant occurrence count of `pat` in `l`: the number of
positions of `l` at which `pat` begins. -/
def count_occurrences (pat : String) : List Char → Nat
  | [] => 0
  | c :: cs =>
    (if pat.data.isPrefixOf (c :: cs) then 1 else 0) + count_occurrences pat cs

/-! ## Helper lemmas -/

/-- Of two initial segments of the same character list, the shorter is an
initial segment of the longer. -/
theorem isPrefixOf_of_isPrefixOf_of_le :
    ∀ (p q l : List Char), p.isPrefixOf l = true → q.isPrefixOf l = true →
    p.length ≤ q.length → p.isPrefixOf q = true := by
  intro p
  induction p with
  | nil => intro q l _ _ _; simp
  | cons a as ih =>
    intro q l hp hq hlen
    cases l with
    | nil => simp at hp
    | cons b bs =>
      cases q with
      | nil => simp at hlen
      | cons c cs =>
        rw [List.isPrefixOf_cons₂] at hp hq ⊢
        rw [Bool.and_eq_true] at hp hq
        rw [Bool.and_eq_true]
        refine ⟨?_, ih cs bs hp.2 hq.2 (by simpa using hlen)⟩
        have hab : a = b := by simpa using hp.1
        have hcb : c = b := by simpa using hq.1
        simp [hab, hcb]

/-- A target triple cannot start with two different patterns of which the
first is at most as long as, yet not an initial segment of, the second. -/
theorem starts_with_excl (t p q : String)
    (hp : starts_with t p = true)
    (hlen : p.data.length ≤ q.data.length)
    (hne : p.data.isPrefixOf q.data = false) :
    starts_with t q = false := by
  by_contra hc
  rw [Bool.not_eq_false] at hc
  have := isPrefixOf_of_isPrefixOf_of_le p.data q.data t.data hp hc hlen
  rw [hne] at this
  exact Bool.false_ne_true this

/-- The disabled configure options of a resolved plan, in full. -/
theorem resolve_disabled_eq (t os d : String) (fs : Features) :
    (resolve t os d fs).disabled_options =
      ["deep-plc", "doc", "dred", "extra-programs", "float-api"]
      ++ (if starts_with t "thumbv6m-" then ["asm"] else [])
      ++ (if starts_with t "thumbv7m-" then ["rtcd"] else [])
      ++ (if starts_with t "thumbv8m.main-" then ["asm", "rtcd"] else []) := by
  simp only [resolve, BuildPlan.disable, BuildPlan.enable, BuildPlan.cflag,
    BuildPlan.ldflag]
  split_ifs <;> simp

/-- The enabled configure options of a resolved plan, in full. -/
theorem resolve_enabled_eq (t os d : String) (fs : Features) :
    (resolve t os d fs).enabled_options = ["fixed-point"] := by
  simp only [resolve, BuildPlan.disable, BuildPlan.enable, BuildPlan.cflag,
    BuildPlan.ldflag]
  split_ifs <;> simp

/-- The extra C flags of a resolved plan, in full. -/
theorem resolve_cflags_eq (t os d : String) (fs : Features) :
    (resolve t os d fs).cflags =
      (if os == "none" then
        ["-D_FORTIFY_SOURCE=0", "-DOVERRIDE_celt_fatal", "-DCUSTOM_SUPPORT",
         "-I" ++ (d ++ "/src")] else [])
      ++ (if fs.optimize_libopus then ["-O3"] else []) := by
  simp only [resolve, BuildPlan.disable, BuildPlan.enable, BuildPlan.cflag,
    BuildPlan.ldflag]
  split_ifs <;> simp

/-- The extra linker flags of a resolved plan, in full. -/
theorem resolve_ldflags_eq (t os d : String) (fs : Features) :
    (resolve t os d fs).ldflags =
      (if os == "none" then ["-nostdlib"] else []) := by
  simp only [resolve, BuildPlan.disable, BuildPlan.enable, BuildPlan.cflag,
    BuildPlan.ldflag]
  split_ifs <;> simp

/-! ## Claims about the build-configuration resolver -/

/-- C1: for every target triple, target OS, manifest directory and feature
flag set, the resolved Build Plan enables exactly the option `fixed-point`
and its disabled options start with the base plan's five options
`deep-plc`, `doc`, `dred`, `extra-programs`, `float-api`, in that order;
any per-architecture override only appends after them. -/
theorem base_plan_unconditional (t os d : String) (fs : Features) :
    (resolve t os d fs).enabled_options = ["fixed-point"] ∧
    ∃ overrides, (resolve t os d fs).disabled_options =
      ["deep-plc", "doc", "dred", "extra-programs", "float-api"] ++ overrides := by
  refine ⟨resolve_enabled_eq t os d fs, ?_, ?_⟩
  · exact (if starts_with t "thumbv6m-" then ["asm"] else [])
      ++ (if starts_with t "thumbv7m-" then ["rtcd"] else [])
      ++ (if starts_with t "thumbv8m.main-" then ["asm", "rtcd"] else [])
  · rw [resolve_disabled_eq]
    simp

/-- C2: for every target triple starting with `thumbv6m-` (the class lacking
the SMULL 32x32 to 64-bit multiply instruction), the resolved plan's
disabled options contain `asm` and the base plan's five options, and do not
contain `rtcd`, since such a triple starts with neither `thumbv7m-` nor
`thumbv8m.main-`. -/
theorem thumbv6m_disables_asm_not_rtcd (t os d : String) (fs : Features)
    (h : starts_with t "thumbv6m-" = true) :
    "asm" ∈ (resolve t os d fs).disabled_options ∧
    "deep-plc" ∈ (resolve t os d fs).disabled_options ∧
    "doc" ∈ (resolve t os d fs).disabled_options ∧
    "dred" ∈ (resolve t os d fs).disabled_options ∧
    "extra-programs" ∈ (resolve t os d fs).disabled_options ∧
    "float-api" ∈ (resolve t os d fs).disabled_options ∧
    "rtcd" ∉ (resolve t os d fs).disabled_options := by
  have h7 : starts_with t "thumbv7m-" = false :=
    starts_with_excl t "thumbv6m-" "thumbv7m-" h (by decide) (by decide)
  have h8 : starts_with t "thumbv8m.main-" = false :=
    starts_with_excl t "thumbv6m-" "thumbv8m.main-" h (by decide) (by decide)
  rw [resolve_disabled_eq, h, h7, h8]
  decide

/-- C2 witness at a concrete Cortex-M0 triple. -/
theorem thumbv6m_disables_asm_not_rtcd_witness :
    "asm" ∈ (resolve "thumbv6m-none-eabi" "none" "/m" ⟨false, false⟩).disabled_options ∧
    "deep-plc" ∈ (resolve "thumbv6m-none-eabi" "none" "/m" ⟨false, false⟩).disabled_options ∧
    "doc" ∈ (resolve "thumbv6m-none-eabi" "none" "/m" ⟨false, false⟩).disabled_options ∧
    "dred" ∈ (resolve "thumbv6m-none-eabi" "none" "/m" ⟨false, false⟩).disabled_options ∧
    "extra-programs" ∈ (resolve "thumbv6m-none-eabi" "none" "/m" ⟨false, false⟩).disabled_options ∧
    "float-api" ∈ (resolve "thumbv6m-none-eabi" "none" "/m" ⟨false, false⟩).disabled_options ∧
    "rtcd" ∉ (resolve "thumbv6m-none-eabi" "none" "/m" ⟨false, false⟩).disabled_options :=
  thumbv6m_disables_asm_not_rtcd "thumbv6m-none-eabi" "none" "/m" ⟨false, false⟩
    (by decide)

/-- C3: for every target triple, if it starts with `thumbv7m-` (no reliable
runtime CPU detection without an OS) the plan disables `rtcd`; if it starts
with `thumbv8m.main-` (conditional instructions outside IT blocks are
invalid) the plan disables both `asm` and `rtcd`; and in all cases the
overrides only append to the base plan's five disabled options, never
removing one. -/
theorem arch_overrides_disable (t os d : String) (fs : Features) :
    (starts_with t "thumbv7m-" = true →
      "rtcd" ∈ (resolve t os d fs).disabled_options) ∧
    (starts_with t "thumbv8m.main-" = true →
      "asm" ∈ (resolve t os d fs).disabled_options ∧
      "rtcd" ∈ (resolve t os d fs).disabled_options) ∧
    ∃ overrides, (resolve t os d fs).disabled_options =
      ["deep-plc", "doc", "dred", "extra-programs", "float-api"] ++ overrides := by
  refine ⟨?_, ?_, ?_⟩
  · intro h7
    rw [resolve_disabled_eq]
    simp [h7]
  · intro h8
    rw [resolve_disabled_eq]
    constructor <;> simp [h8]
  · refine ⟨(if starts_with t "thumbv6m-" then ["asm"] else [])
      ++ (if starts_with t "thumbv7m-" then ["rtcd"] else [])
      ++ (if starts_with t "thumbv8m.main-" then ["asm", "rtcd"] else []), ?_⟩
    rw [resolve_disabled_eq]
    simp

/-- C3 witness at concrete Cortex-M3 and Cortex-M33 triples. -/
theorem arch_overrides_disable_witness :
    "rtcd" ∈ (resolve "thumbv7m-none-eabi" "none" "/m" ⟨false, false⟩).disabled_options ∧
    "asm" ∈ (resolve "thumbv8m.main-none-eabi" "none" "/m" ⟨false, false⟩).disabled_options ∧
    "rtcd" ∈ (resolve "thumbv8m.main-none-eabi" "none" "/m" ⟨false, false⟩).disabled_options :=
  ⟨(arch_overrides_disable "thumbv7m-none-eabi" "none" "/m" ⟨false, false⟩).1
      (by decide),
   (arch_overrides_disable "thumbv8m.main-none-eabi" "none" "/m" ⟨false, false⟩).2.1
      (by decide)⟩

/-- C4: for every target triple, target OS, manifest directory and feature
flag set, no option name is both enabled and disabled in the resolved plan:
the only enabled option, `fixed-point`, is never among the disabled ones. -/
theorem no_option_enabled_and_disabled (t os d : String) (fs : Features) :
    ∀ opt, opt ∈ (resolve t os d fs).enabled_options →
      opt ∉ (resolve t os d fs).disabled_options := by
  intro opt hmem
  rw [resolve_enabled_eq] at hmem
  rw [List.mem_singleton] at hmem
  subst hmem
  rw [resolve_disabled_eq]
  split_ifs <;> decide

/-- C4 witness at a concrete input. -/
theorem no_option_enabled_and_disabled_witness :
    "fixed-point" ∉ (resolve "thumbv6m-none-eabi" "none" "/m"
      ⟨false, false⟩).disabled_options :=
  no_option_enabled_and_disabled "thumbv6m-none-eabi" "none" "/m"
    ⟨false, false⟩ "fixed-point" (by decide)

/-- C8: for every target triple starting with `thumbv6m-`, target OS
`none`, and both features off, the resolved plan enables `fixed-point`,
disables `deep-plc`, `doc`, `dred`, `extra-programs`, `float-api` and
`asm`, carries the fortify-disable, fatal-hook-override and
custom-allocator-support defines, an include path at the caller's `src`
directory, and the `-nostdlib` linker flag. -/
theorem no_os_thumbv6m_end_to_end (t d : String) (fs : Features)
    (h : starts_with t "thumbv6m-" = true)
    (hopt : fs.optimize_libopus = false) (_hst : fs.stereo = false) :
    "fixed-point" ∈ (resolve t "none" d fs).enabled_options ∧
    "deep-plc" ∈ (resolve t "none" d fs).disabled_options ∧
    "doc" ∈ (resolve t "none" d fs).disabled_options ∧
    "dred" ∈ (resolve t "none" d fs).disabled_options ∧
    "extra-programs" ∈ (resolve t "none" d fs).disabled_options ∧
    "float-api" ∈ (resolve t "none" d fs).disabled_options ∧
    "asm" ∈ (resolve t "none" d fs).disabled_options ∧
    "-D_FORTIFY_SOURCE=0" ∈ (resolve t "none" d fs).cflags ∧
    "-DOVERRIDE_celt_fatal" ∈ (resolve t "none" d fs).cflags ∧
    "-DCUSTOM_SUPPORT" ∈ (resolve t "none" d fs).cflags ∧
    ("-I" ++ (d ++ "/src")) ∈ (resolve t "none" d fs).cflags ∧
    "-nostdlib" ∈ (resolve t "none" d fs).ldflags := by
  rw [resolve_enabled_eq, resolve_disabled_eq, resolve_cflags_eq,
    resolve_ldflags_eq, h, hopt]
  simp

/-- C8 witness at a concrete Cortex-M0 triple. -/
theorem no_os_thumbv6m_end_to_end_witness :
    "fixed-point" ∈ (resolve "thumbv6m-none-eabi" "none" "/m" ⟨false, false⟩).enabled_options ∧
    "deep-plc" ∈ (resolve "thumbv6m-none-eabi" "none" "/m" ⟨false, false⟩).disabled_options ∧
    "doc" ∈ (resolve "thumbv6m-none-eabi" "none" "/m" ⟨false, false⟩).disabled_options ∧
    "dred" ∈ (resolve "thumbv6m-none-eabi" "none" "/m" ⟨false, false⟩).disabled_options ∧
    "extra-programs" ∈ (resolve "thumbv6m-none-eabi" "none" "/m" ⟨false, false⟩).disabled_options ∧
    "float-api" ∈ (resolve "thumbv6m-none-eabi" "none" "/m" ⟨false, false⟩).disabled_options ∧
    "asm" ∈ (resolve "thumbv6m-none-eabi" "none" "/m" ⟨false, false⟩).disabled_options ∧
    "-D_FORTIFY_SOURCE=0" ∈ (resolve "thumbv6m-none-eabi" "none" "/m" ⟨false, false⟩).cflags ∧
    "-DOVERRIDE_celt_fatal" ∈ (resolve "thumbv6m-none-eabi" "none" "/m" ⟨false, false⟩).cflags ∧
    "-DCUSTOM_SUPPORT" ∈ (resolve "thumbv6m-none-eabi" "none" "/m" ⟨false, false⟩).cflags ∧
    ("-I" ++ ("/m" ++ "/src")) ∈ (resolve "thumbv6m-none-eabi" "none" "/m" ⟨false, false⟩).cflags ∧
    "-nostdlib" ∈ (resolve "thumbv6m-none-eabi" "none" "/m" ⟨false, false⟩).ldflags :=
  no_os_thumbv6m_end_to_end "thumbv6m-none-eabi" "/m" ⟨false, false⟩
    (by decide) rfl rfl

/-- C9: for every target OS and feature set, the bindgen allow-list
contains the lifecycle functions `opus_decoder_create` and
`opus_decoder_destroy` exactly when the target OS is not `none`. -/
theorem lifecycle_functions_iff_os (os : String) (fs : Features) :
    ("opus_decoder_create" ∈ (bindgen_config os fs).allowlist_functions ↔
      os ≠ "none") ∧
    ("opus_decoder_destroy" ∈ (bindgen_config os fs).allowlist_functions ↔
      os ≠ "none") := by
  by_cases hos : os = "none" <;>
    simp [bindgen_config, hos] <;>
    cases fs.stereo <;> simp

/-- C10: two runs differing only in the `stereo` feature flag produce the
same Build Plan and the same bindgen allow-lists; their clang arguments
differ exactly by appending the define `-DOPUS_EMBEDDED_SYS_STEREO`. -/
theorem stereo_frame_effect (t os d : String) (opt : Bool) :
    resolve t os d ⟨opt, true⟩ = resolve t os d ⟨opt, false⟩ ∧
    (bindgen_config os ⟨opt, true⟩).allowlist_types =
      (bindgen_config os ⟨opt, false⟩).allowlist_types ∧
    (bindgen_config os ⟨opt, true⟩).allowlist_functions =
      (bindgen_config os ⟨opt, false⟩).allowlist_functions ∧
    (bindgen_config os ⟨opt, true⟩).allowlist_vars =
      (bindgen_config os ⟨opt, false⟩).allowlist_vars ∧
    (bindgen_config os ⟨opt, true⟩).clang_args =
      (bindgen_config os ⟨opt, false⟩).clang_args
        ++ ["-DOPUS_EMBEDDED_SYS_STEREO"] := by
  refine ⟨rfl, ?_, ?_, ?_, ?_⟩ <;>
    by_cases hos : os = "none" <;> simp [bindgen_config, hos]

/-! ## Claims about the comment transformer -/

/-- C5: whenever the base doxygen conversion succeeds with text `c`, the
transformer's output is the rewrite rules applied to the literal
substitutions applied to `c` — substitutions strictly first.  Moreover, on
an adversarial comment holding exactly one reserved literal token
`#OPUS_RESET_STATE`, the actual order fully replaces the token before any
rewrite rule runs (yielding a plain back-quoted name), while running the
rewrite rules first would let rule 3 capture the token as a bracketed
cross-reference instead — so the two orders are observably different. -/
theorem literal_subs_before_rules :
    (∀ (tf : String → Except String String) (comment c : String),
      tf comment = Except.ok c →
      process_comment tf comment =
        (some (String.mk (rewrite_rules (literal_subs c.data))), none)) ∧
    String.mk (rewrite_rules (literal_subs ("See #OPUS_RESET_STATE info.".data)))
      = "See `OPUS_RESET_STATE` info." ∧
    String.mk (literal_subs (rewrite_rules ("See #OPUS_RESET_STATE info.".data)))
      = "See [`OPUS_RESET_STATE`] info." ∧
    count_occurrences "#OPUS_RESET_STATE"
      (rewrite_rules (literal_subs ("See #OPUS_RESET_STATE info.".data))) = 0 := by
  refine ⟨?_, by decide, by decide, by decide⟩
  intro tf comment c h
  unfold process_comment
  rw [h]

/-- C5 witness: the general part applied to a succeeding collaborator on
the adversarial comment. -/
theorem literal_subs_before_rules_witness :
    process_comment Except.ok "See #OPUS_RESET_STATE info." =
      (some "See `OPUS_RESET_STATE` info.", none) := by
  rw [literal_subs_before_rules.1 Except.ok "See #OPUS_RESET_STATE info."
    "See #OPUS_RESET_STATE info." rfl]
  decide

/-- C6: a fully transformed comment with a single return-value case (here
the transform of a comment whose doxygen conversion produced
`Frees it.\n@retval #OPUS_OK Success`) contains exactly one `# Returns`
section header, and running the full ordered rewrite-rule sequence a second
time leaves the text unchanged — in particular it does not insert a
duplicate `# Returns` header. -/
theorem returns_header_not_duplicated :
    count_occurrences "# Returns"
      (rewrite_rules (literal_subs ("Frees it.\n@retval #OPUS_OK Success".data)))
      = 1 ∧
    rewrite_rules
        (rewrite_rules (literal_subs ("Frees it.\n@retval #OPUS_OK Success".data)))
      = rewrite_rules (literal_subs ("Frees it.\n@retval #OPUS_OK Success".data)) ∧
    count_occurrences "# Returns"
      (rewrite_rules
        (rewrite_rules (literal_subs ("Frees it.\n@retval #OPUS_OK Success".data))))
      = 1 := by
  refine ⟨by decide, by decide, by decide⟩

/-- C7: whenever the base doxygen conversion fails with diagnostic `err`,
the transformer returns no documentation (rather than aborting), and the
emitted warning line carries the original raw comment verbatim together
with the collaborator's diagnostic. -/
theorem failed_conversion_keeps_raw_comment
    (tf : String → Except String String) (comment err : String)
    (h : tf comment = Except.error err) :
    process_comment tf comment =
      (none,
       some ("cargo:warning=Could not transform doxygen comment: "
         ++ comment ++ "\n" ++ err)) := by
  unfold process_comment
  rw [h]

/-- C7 witness at a concrete always-failing collaborator. -/
theorem failed_conversion_keeps_raw_comment_witness :
    process_comment (fun _ => Except.error "unmatched tag") "@bogus raw" =
      (none,
       some ("cargo:warning=Could not transform doxygen comment: "
         ++ "@bogus raw" ++ "\n" ++ "unmatched tag")) :=
  failed_conversion_keeps_raw_comment (fun _ => Except.error "unmatched tag")
    "@bogus raw" "unmatched tag" rfl
